import Mathlib

set_option maxHeartbeats 1000000

/-!
Shallow embedding of the `metoffice_datahub` Home Assistant integration.

The embedding follows the two core source files:

* `custom_components/metoffice_datahub/metoffice_datahub_api.py` —
  `MetOfficeDataHubAPI.async_get_forecast`, the HTTP client with its
  retry/backoff loop.  Network attempts are abstracted by an oracle
  `Nat → AttemptResult` giving the outcome of the i-th HTTP attempt
  (parsed JSON body on 2xx, a `ClientResponseError` status from
  `raise_for_status` on a non-2xx status, or a transport-level
  `ClientError`).  The embedding records the result, the list of
  back-off sleeps performed (in seconds) and the number of attempts made.

* `custom_components/metoffice_datahub/weather.py` —
  `MetOfficeDataHubWeather.async_update`, `async_forecast_daily` and
  `_create_daily_forecast`, over a JSON tree model.  Python runtime
  errors (KeyError, IndexError, TypeError, ValueError) are modelled with
  an `Except PyErr` result; a raised error aborts the modelled method,
  mirroring an exception escaping the Python method.  Python numbers are
  modelled as rationals.  `dt_util.parse_datetime(...).date()` is external
  library code and is abstracted by a parameter `parse : Json → Option Int`
  returning the calendar date (`none` for an unparseable timestamp);
  CPython's iteration order over `set(conditions)` is abstracted by a
  parameter `setOrder` enumerating the distinct condition codes.
-/

/-- JSON-like tree, the shape of `response.json()` payloads.  Numbers are
modelled as rationals. -/
inductive Json where
  | null
  | bool (b : Bool)
  | num (q : ℚ)
  | str (s : String)
  | arr (elems : List Json)
  | obj (fields : List (String × Json))

/-- Python runtime errors that the embedded weather code can raise. -/
inductive PyErr where
  | keyError
  | indexError
  | typeError
  | valueError
  deriving DecidableEq, Repr

/-- Exceptions raised by `MetOfficeDataHubAPI.async_get_forecast`:
`ValueError` for an invalid forecast type, `aiohttp.ClientResponseError`
(carrying the HTTP status) re-raised after `raise_for_status`, and any
other `aiohttp.ClientError` (connection reset, timeout, DNS failure). -/
inductive ApiError where
  | invalidForecastType
  | clientResponseError (status : Nat)
  | clientError
  deriving DecidableEq, Repr

/-- Outcome of one HTTP attempt inside the retry loop, as seen at the
`try`/`except` of `async_get_forecast`: a 2xx response whose body parsed
to `body`, a `ClientResponseError` with the given non-2xx status, or a
transport-level `ClientError`. -/
inductive AttemptResult where
  | success (body : Json)
  | httpError (status : Nat)
  | clientError

/-- Observable trace of one `async_get_forecast` call: the returned value
(`.ok none` models the `return None` fall-through after the loop), the
back-off sleeps performed (`asyncio.sleep(2 ** attempt)`, in seconds, in
order), and how many HTTP attempts were made. -/
structure FetchTrace where
  result : Except ApiError (Option Json)
  sleeps : List Nat
  attemptsMade : Nat

/-- `ENDPOINTS` from `const.py`. -/
def ENDPOINTS : List (String × String) :=
  [("hourly", "/hourly"), ("three_hourly", "/three-hourly"), ("daily", "/daily")]

/-- The `for attempt in range(3)` retry loop of `async_get_forecast`,
with `remaining` the number of loop iterations left (`3 - attempt` at
entry).  Mirrors the source: return the parsed body on success; on a
`ClientResponseError` re-raise immediately for status 401, sleep
`2 ** attempt` and retry for status 429 when `attempt < 2`, otherwise
re-raise; on any other `ClientError` sleep and retry when `attempt < 2`,
otherwise re-raise.  Falling out of the loop returns `None`. -/
def forecastLoop (oracle : Nat → AttemptResult) : Nat → Nat → FetchTrace
  | a, 0 => ⟨.ok none, [], a⟩
  | a, r + 1 =>
    match oracle a with
    | .success body => ⟨.ok (some body), [], a + 1⟩
    | .httpError s =>
      if s = 401 then ⟨.error (.clientResponseError s), [], a + 1⟩
      else if s = 429 then
        if a < 2 then
          let t := forecastLoop oracle (a + 1) r
          ⟨t.result, 2 ^ a :: t.sleeps, t.attemptsMade⟩
        else ⟨.error (.clientResponseError s), [], a + 1⟩
      else ⟨.error (.clientResponseError s), [], a + 1⟩
    | .clientError =>
      if a < 2 then
        let t := forecastLoop oracle (a + 1) r
        ⟨t.result, 2 ^ a :: t.sleeps, t.attemptsMade⟩
      else ⟨.error .clientError, [], a + 1⟩

/-- `MetOfficeDataHubAPI.async_get_forecast`: reject a forecast type that
is not a key of `ENDPOINTS` with `ValueError` before any network call,
otherwise run the three-attempt retry loop. -/
def async_get_forecast (forecast_type : String) (oracle : Nat → AttemptResult) : FetchTrace :=
  if (ENDPOINTS.lookup forecast_type).isSome then forecastLoop oracle 0 3
  else ⟨.error .invalidForecastType, [], 0⟩

/-- Whether an attempt outcome takes one of the two retry branches of the
loop (rate-limited 429, or a transport-level `ClientError`). -/
def retryable : AttemptResult → Prop
  | .httpError s => s = 429
  | .clientError => True
  | .success _ => False

/-- The error re-raised when the retry branches exhaust their attempts on
the given outcome. -/
def retryErrOf : AttemptResult → ApiError
  | .httpError s => .clientResponseError s
  | _ => .clientError

/-- `true` exactly on the `return None` fall-through value. -/
def isNoneResult : Except ApiError (Option Json) → Bool
  | .ok none => true
  | _ => false

lemma forecastLoop_attempts_le (oracle : Nat → AttemptResult) :
    ∀ r a, (forecastLoop oracle a r).attemptsMade ≤ a + r := by
  intro r
  induction r with
  | zero => intro a; simp [forecastLoop]
  | succ r ih =>
    intro a
    rw [forecastLoop]
    cases oracle a with
    | success body => simp
    | httpError s =>
      by_cases h401 : s = 401
      · simp [h401]
      · by_cases h429 : s = 429
        · by_cases ha : a < 2
          · simp [h401, h429, ha]
            have := ih (a + 1)
            omega
          · simp [h401, h429, ha]
        · simp [h401, h429]
    | clientError =>
      by_cases ha : a < 2
      · simp [ha]
        have := ih (a + 1)
        omega
      · simp [ha]

lemma forecastLoop_not_none (oracle : Nat → AttemptResult) :
    ∀ r a, 2 < a + r → a ≤ 2 → isNoneResult (forecastLoop oracle a r).result = false := by
  intro r
  induction r with
  | zero => intro a h1 h2; omega
  | succ r ih =>
    intro a h1 h2
    rw [forecastLoop]
    cases oracle a with
    | success body => simp [isNoneResult]
    | httpError s =>
      by_cases h401 : s = 401
      · simp [h401, isNoneResult]
      · by_cases h429 : s = 429
        · by_cases ha : a < 2
          · simp [h401, h429, ha]
            exact ih (a + 1) (by omega) (by omega)
          · simp [h401, h429, ha, isNoneResult]
        · simp [h401, h429, isNoneResult]
    | clientError =>
      by_cases ha : a < 2
      · simp [ha]
        exact ih (a + 1) (by omega) (by omega)
      · simp [ha, isNoneResult]

lemma forecastLoop_success_step (oracle : Nat → AttemptResult) (a r : Nat) (b : Json)
    (h : oracle a = .success b) :
    forecastLoop oracle a (r + 1) = ⟨.ok (some b), [], a + 1⟩ := by
  rw [forecastLoop, h]

lemma forecastLoop_retry_step (oracle : Nat → AttemptResult) (a r : Nat)
    (h : retryable (oracle a)) (ha : a < 2) :
    forecastLoop oracle a (r + 1) =
      ⟨(forecastLoop oracle (a + 1) r).result,
        2 ^ a :: (forecastLoop oracle (a + 1) r).sleeps,
        (forecastLoop oracle (a + 1) r).attemptsMade⟩ := by
  cases ho : oracle a with
  | success b => rw [ho] at h; exact absurd h (by simp [retryable])
  | httpError s =>
    rw [ho] at h
    have hs : s = 429 := h
    subst hs
    rw [forecastLoop, ho]
    simp [ha]
  | clientError =>
    rw [forecastLoop, ho]
    simp [ha]

lemma forecastLoop_last_fail (oracle : Nat → AttemptResult) (r : Nat)
    (h : retryable (oracle 2)) :
    forecastLoop oracle 2 (r + 1) = ⟨.error (retryErrOf (oracle 2)), [], 3⟩ := by
  cases ho : oracle 2 with
  | success b => rw [ho] at h; exact absurd h (by simp [retryable])
  | httpError s =>
    rw [ho] at h
    have hs : s = 429 := h
    subst hs
    rw [forecastLoop, ho]
    simp [retryErrOf]
  | clientError =>
    rw [forecastLoop, ho]
    simp [retryErrOf]

/-- C4: for a valid resolution, if the first three attempts all hit the
retryable failures (HTTP 429 or a transport-level `ClientError`), the
fetch makes exactly 3 attempts, sleeps 2^0 = 1s then 2^1 = 2s between
them, and raises the error of the 3rd attempt (429 rate-limit error or
communication error) with no 4th attempt; if attempt `i < 3` succeeds
after retryable failures, the fetch returns that attempt's payload with
exactly `i + 1` attempts and the backoff sleeps made so far; and in every
execution at most 3 attempts are made. -/
theorem retry_policy_backoff (forecast_type : String) (oracle : Nat → AttemptResult)
    (hvalid : (ENDPOINTS.lookup forecast_type).isSome = true) :
    ((retryable (oracle 0) ∧ retryable (oracle 1) ∧ retryable (oracle 2)) →
        async_get_forecast forecast_type oracle =
          ⟨.error (retryErrOf (oracle 2)), [1, 2], 3⟩) ∧
    (∀ i b, i < 3 → oracle i = .success b → (∀ j, j < i → retryable (oracle j)) →
        async_get_forecast forecast_type oracle =
          ⟨.ok (some b), (List.range i).map (2 ^ ·), i + 1⟩) ∧
    (async_get_forecast forecast_type oracle).attemptsMade ≤ 3 := by
  have hunfold : async_get_forecast forecast_type oracle = forecastLoop oracle 0 3 := by
    simp [async_get_forecast, hvalid]
  refine ⟨?_, ?_, ?_⟩
  · rintro ⟨h0, h1, h2⟩
    rw [hunfold, forecastLoop_retry_step oracle 0 2 h0 (by omega),
      forecastLoop_retry_step oracle 1 1 h1 (by omega),
      forecastLoop_last_fail oracle 0 h2]
    rfl
  · intro i b hi hsucc hprev
    rw [hunfold]
    interval_cases i
    · rw [forecastLoop_success_step oracle 0 2 b hsucc]
      simp
    · rw [forecastLoop_retry_step oracle 0 2 (hprev 0 (by omega)) (by omega)]
      rw [forecastLoop_success_step oracle 1 1 b hsucc]
      simp [List.range_succ]
    · rw [forecastLoop_retry_step oracle 0 2 (hprev 0 (by omega)) (by omega)]
      rw [forecastLoop_retry_step oracle 1 1 (hprev 1 (by omega)) (by omega)]
      rw [forecastLoop_success_step oracle 2 0 b hsucc]
      simp [List.range_succ]
  · rw [hunfold]
    exact forecastLoop_attempts_le oracle 3 0

/-- Witness for C4: three 429 responses give sleeps [1, 2], the 429 error
after exactly 3 attempts; one transient connection error followed by a
success returns the payload after exactly 2 attempts. -/
theorem retry_policy_backoff_witness :
    async_get_forecast "hourly" (fun _ => AttemptResult.httpError 429) =
      ⟨.error (.clientResponseError 429), [1, 2], 3⟩ ∧
    async_get_forecast "hourly"
        (fun i => if i = 0 then AttemptResult.clientError else .success (Json.num 1)) =
      ⟨.ok (some (Json.num 1)), [1], 2⟩ := by
  constructor
  · have h := (retry_policy_backoff "hourly" (fun _ => AttemptResult.httpError 429)
      (by decide)).1 ⟨rfl, rfl, rfl⟩
    simpa [retryErrOf] using h
  · have h := (retry_policy_backoff "hourly"
      (fun i => if i = 0 then AttemptResult.clientError else .success (Json.num 1))
      (by decide)).2.1 1 (Json.num 1) (by omega) rfl
      (fun j hj => by interval_cases j; exact trivial)
    simpa using h

/-- C5: for a valid resolution, a 401 on the first attempt fails
immediately with the 401 `ClientResponseError` (the authentication
error), with no sleep and no second attempt; and any other status
distinct from 401 and 429 on the first attempt fails immediately with a
`ClientResponseError` carrying that status, with no sleep and no second
attempt. -/
theorem immediate_fail_statuses (forecast_type : String) (oracle : Nat → AttemptResult)
    (s : Nat) (hvalid : (ENDPOINTS.lookup forecast_type).isSome = true) :
    (oracle 0 = .httpError 401 →
        async_get_forecast forecast_type oracle =
          ⟨.error (.clientResponseError 401), [], 1⟩) ∧
    (oracle 0 = .httpError s → s ≠ 401 → s ≠ 429 →
        async_get_forecast forecast_type oracle =
          ⟨.error (.clientResponseError s), [], 1⟩) := by
  have hunfold : async_get_forecast forecast_type oracle = forecastLoop oracle 0 3 := by
    simp [async_get_forecast, hvalid]
  constructor
  · intro h0
    rw [hunfold, show (3 : Nat) = 2 + 1 from rfl, forecastLoop, h0]
    simp
  · intro h0 h401 h429
    rw [hunfold, show (3 : Nat) = 2 + 1 from rfl, forecastLoop, h0]
    simp [h401, h429]

/-- Witness for C5: a 401 and a 500 on the first attempt each fail after
exactly one attempt with no sleeps. -/
theorem immediate_fail_statuses_witness :
    async_get_forecast "hourly" (fun _ => AttemptResult.httpError 401) =
      ⟨.error (.clientResponseError 401), [], 1⟩ ∧
    async_get_forecast "hourly" (fun _ => AttemptResult.httpError 500) =
      ⟨.error (.clientResponseError 500), [], 1⟩ :=
  ⟨(immediate_fail_statuses "hourly" (fun _ => AttemptResult.httpError 401) 401
      (by decide)).1 rfl,
   (immediate_fail_statuses "hourly" (fun _ => AttemptResult.httpError 500) 500
      (by decide)).2 rfl (by omega) (by omega)⟩

/-- C6: for a forecast type that is not a key of `ENDPOINTS`, the fetch
raises the invalid-forecast-type `ValueError` with zero HTTP attempts and
zero sleeps, whatever the network would have answered. -/
theorem invalid_resolution_no_network (forecast_type : String)
    (oracle : Nat → AttemptResult) (h : ENDPOINTS.lookup forecast_type = none) :
    async_get_forecast forecast_type oracle =
      ⟨.error .invalidForecastType, [], 0⟩ := by
  simp [async_get_forecast, h]

/-- Witness for C6: the unsupported forecast type "weekly" is rejected
before any network attempt. -/
theorem invalid_resolution_no_network_witness :
    ENDPOINTS.lookup "weekly" = none ∧
    async_get_forecast "weekly" (fun _ => AttemptResult.success (Json.num 1)) =
      ⟨.error .invalidForecastType, [], 0⟩ :=
  ⟨by decide,
   invalid_resolution_no_network "weekly" (fun _ => AttemptResult.success (Json.num 1))
     (by decide)⟩

/-- C10: `async_get_forecast` never returns `None`: for every forecast
type and every sequence of attempt outcomes, the result is either a
parsed successful payload or a raised error; the `return None`
fall-through after the retry loop is unreachable. -/
theorem fetch_never_returns_none (forecast_type : String) (oracle : Nat → AttemptResult) :
    isNoneResult (async_get_forecast forecast_type oracle).result = false := by
  by_cases h : (ENDPOINTS.lookup forecast_type).isSome
  · have hunfold : async_get_forecast forecast_type oracle = forecastLoop oracle 0 3 := by
      simp [async_get_forecast, h]
    rw [hunfold]
    exact forecastLoop_not_none oracle 3 0 (by omega) (by omega)
  · simp [async_get_forecast, h, isNoneResult]

/-- Association-list lookup for JSON object fields (Python `dict` access
by string key). -/
def lookupKvs (k : String) : List (String × Json) → Option Json
  | [] => none
  | (k', v) :: rest => if k' = k then some v else lookupKvs k rest

/-- Python truthiness of a JSON value (`bool(x)`): `None`, `False`, `0`,
`""`, `[]` and `{}` are falsy. -/
def truthy : Json → Bool
  | .null => false
  | .bool b => b
  | .num q => if q = 0 then false else true
  | .str s => if s = "" then false else true
  | .arr elems => match elems with | [] => false | _ => true
  | .obj fields => match fields with | [] => false | _ => true

/-- Python subscript by string key, `x["k"]`: field lookup on a dict
(`KeyError` when absent), `TypeError` on any other value. -/
def tryGet (j : Json) (k : String) : Except PyErr Json :=
  match j with
  | .obj fields =>
    match lookupKvs k fields with
    | some v => .ok v
    | none => .error .keyError
  | _ => .error .typeError

/-- Python subscript by non-negative integer index, `x[i]`: list/string
indexing (`IndexError` out of range), `KeyError` on a dict whose keys are
strings, `TypeError` otherwise. -/
def tryIdx (j : Json) (i : Nat) : Except PyErr Json :=
  match j with
  | .arr elems =>
    match elems.get? i with
    | some v => .ok v
    | none => .error .indexError
  | .str s =>
    match s.toList.get? i with
    | some c => .ok (.str (String.mk [c]))
    | none => .error .indexError
  | .obj _ => .error .keyError
  | _ => .error .typeError

/-- Substring test on character lists (Python `"k" in s` for strings). -/
def charsInfix (pat s : List Char) : Bool :=
  (List.range (s.length + 1)).any fun i => pat.isPrefixOf (s.drop i)

/-- Python membership test with a string on the left, `"k" in x`: key
test on a dict, element test on a list, substring test on a string,
`TypeError` otherwise. -/
def containsKey (j : Json) (k : String) : Except PyErr Bool :=
  match j with
  | .obj fields => .ok (lookupKvs k fields).isSome
  | .arr elems =>
    .ok (elems.any fun x => match x with | .str s => s = k | _ => false)
  | .str s => .ok (charsInfix k.toList s.toList)
  | _ => .error .typeError

/-- Python iteration, `for entry in x`: the elements of a list, the
one-character strings of a string, the keys of a dict, `TypeError`
otherwise. -/
def pyIter (j : Json) : Except PyErr (List Json)  :=
  match j with
  | .arr elems => .ok elems
  | .str s => .ok (s.toList.map fun c => .str (String.mk [c]))
  | .obj fields => .ok (fields.map fun kv => .str kv.1)
  | _ => .error .typeError

/-- Python true division of a JSON value by a non-zero numeric literal
(`x / 100`): numbers divide, `True`/`False` count as 1/0, anything else
is a `TypeError`. -/
def pyDivNum (j : Json) (d : ℚ) : Except PyErr ℚ :=
  match j with
  | .num q => .ok (q / d)
  | .bool b => .ok ((if b then (1 : ℚ) else 0) / d)
  | _ => .error .typeError

/-- `CONDITION_MAP` from `weather.py`: Met Office significant-weather
codes to Home Assistant condition strings. -/
def CONDITION_MAP : List (Int × String) :=
  [(0, "clear-night"), (1, "sunny"), (2, "partlycloudy"), (3, "partlycloudy"),
   (5, "fog"), (6, "fog"), (7, "cloudy"), (8, "cloudy"),
   (9, "lightning-rainy"), (10, "lightning-rainy"), (11, "rainy"), (12, "rainy"),
   (13, "rainy"), (14, "rainy"), (15, "rainy"),
   (16, "snowy-rainy"), (17, "snowy-rainy"), (18, "snowy-rainy"),
   (19, "snowy"), (20, "snowy"), (21, "snowy"), (22, "snowy"), (23, "snowy"),
   (24, "snowy"), (25, "snowy"), (26, "snowy"), (27, "snowy"),
   (28, "lightning"), (29, "lightning"), (30, "lightning")]

/-- `CONDITION_MAP.get(q, "unknown")` for a numeric key: Python `dict`
lookup uses value equality, so `3.0` finds key `3`; non-integral numbers
and unmapped codes give `"unknown"`. -/
def condLookupQ (q : ℚ) : String :=
  if q.den = 1 then ((CONDITION_MAP.lookup q.num).getD "unknown") else "unknown"

/-- Whether a JSON value is hashable in Python (usable as a `dict` key):
`None`, booleans, numbers and strings are; lists and dicts are not. -/
def hashableJson : Json → Bool
  | .arr _ => false
  | .obj _ => false
  | _ => true

/-- The value `CONDITION_MAP.get(x, "unknown")` returns on a HASHABLE
key: `True`/`False` equal 1/0 under Python dict lookup; a hashable
non-numeric key (string, `None`) is simply absent and yields
`"unknown"`.  Spec-side companion of `conditionGetE`. -/
def conditionGet : Json → String
  | .num q => condLookupQ q
  | .bool b => condLookupQ (if b then 1 else 0)
  | _ => "unknown"

/-- `CONDITION_MAP.get(x, "unknown")` as the source executes it: an
unhashable key (a JSON list or object) raises `TypeError`; a hashable
key looks up with value equality and falls back to `"unknown"`. -/
def conditionGetE (j : Json) : Except PyErr String :=
  match j with
  | .arr _ => .error .typeError
  | .obj _ => .error .typeError
  | _ => .ok (conditionGet j)

/-- Current-conditions attributes written by `async_update` (the
`_attr_*` assignments).  Pressure is numeric because the source divides
`mslp` by 100; the condition is the mapped string; the other attributes
store the raw JSON values assigned. -/
structure CurrentAttrs where
  native_temperature : Json
  native_apparent_temperature : Json
  native_dew_point : Json
  humidity : Json
  native_pressure : ℚ
  native_visibility : Json
  native_wind_speed : Json
  wind_bearing : Json
  uv_index : Json
  condition : String

/-- Mutable state of `MetOfficeDataHubWeather` relevant to the claims:
`self._data`, `self._attr_available`, and the current-conditions
attributes (`none` while never assigned). -/
structure WeatherState where
  data : Option Json
  available : Bool
  attrs : Option CurrentAttrs

/-- The state after `__init__`: `self._data = None`,
`self._attr_available = False`, no current-conditions attributes set. -/
def initState : WeatherState :=
  { data := none, available := false, attrs := none }

/-- The block of `self._attr_* = current[...]` assignments at the end of
`async_update`, in source order; raises `KeyError` on a missing field,
`TypeError` on a non-numeric `mslp`, and `TypeError` from
`CONDITION_MAP.get` on an unhashable significant-weather code. -/
def setCurrentAttrs (st1 : WeatherState) (current : Json) : Except PyErr WeatherState := do
  let temp ← tryGet current "screenTemperature"
  let feels ← tryGet current "feelsLikeTemperature"
  let dew ← tryGet current "screenDewPointTemperature"
  let hum ← tryGet current "screenRelativeHumidity"
  let mslp ← tryGet current "mslp"
  let pressure ← pyDivNum mslp 100
  let vis ← tryGet current "visibility"
  let wind ← tryGet current "windSpeed10m"
  let bearing ← tryGet current "windDirectionFrom10m"
  let uv ← tryGet current "uvIndex"
  let codeJ ← tryGet current "significantWeatherCode"
  let cond ← conditionGetE codeJ
  let a : CurrentAttrs :=
    { native_temperature := temp,
      native_apparent_temperature := feels,
      native_dew_point := dew,
      humidity := hum,
      native_pressure := pressure,
      native_visibility := vis,
      native_wind_speed := wind,
      wind_bearing := bearing,
      uv_index := uv,
      condition := cond }
  pure { st1 with attrs := some a }

/-- `MetOfficeDataHubWeather.async_update`.  The input is the outcome of
`await self._api.async_get_forecast("hourly")`: `.error` when the client
raised (any exception is caught, `available` becomes `False`, nothing
else changes), `.ok d` when it returned `d`.  On a return, `self._data`
is replaced and `available` set `True` before any validation; each
guarded structural check then either returns cleanly or falls through to
the subscript accesses, whose Python errors escape the method (modelled
as `.error`).  The model commits attribute writes only when the whole
block succeeds; the claims checked here never observe the partially
assigned attributes of an aborted run. -/
def async_update (st : WeatherState) (fr : Except ApiError (Option Json)) :
    Except PyErr WeatherState :=
  match fr with
  | .error _ => .ok { st with available := false }
  | .ok d =>
    let st1 : WeatherState := { st with data := d, available := true }
    match d with
    | none => .ok st1
    | some body =>
      if !truthy body then .ok st1
      else match containsKey body "features" with
      | .error e => .error e
      | .ok false => .ok st1
      | .ok true =>
        match tryGet body "features" with
        | .error e => .error e
        | .ok fs =>
          match tryIdx fs 0 with
          | .error e => .error e
          | .ok feature =>
            if !truthy feature then .ok st1
            else match containsKey feature "properties" with
            | .error e => .error e
            | .ok false => .ok st1
            | .ok true =>
              match tryGet feature "properties" with
              | .error e => .error e
              | .ok properties =>
                if !truthy properties then .ok st1
                else match containsKey properties "timeSeries" with
                | .error e => .error e
                | .ok false => .ok st1
                | .ok true =>
                  match tryGet properties "timeSeries" with
                  | .error e => .error e
                  | .ok ts =>
                    match tryIdx ts 0 with
                    | .error e => .error e
                    | .ok current =>
                      if !truthy current then .ok st1
                      else setCurrentAttrs st1 current

/-- Decides whether a successful fetch body makes `async_update` return
cleanly at one of its guarded structural checks (`not self._data`,
`"features" not in self._data`, `not feature`, `"properties" not in
feature`, `not properties`, `"timeSeries" not in properties`,
`not current`), following the source's check order. -/
def guardReturn (body : Json) : Bool :=
  if !truthy body then true
  else match containsKey body "features" with
  | .ok false => true
  | .ok true =>
    match tryGet body "features" with
    | .ok fs =>
      match tryIdx fs 0 with
      | .ok feature =>
        if !truthy feature then true
        else match containsKey feature "properties" with
        | .ok false => true
        | .ok true =>
          match tryGet feature "properties" with
          | .ok properties =>
            if !truthy properties then true
            else match containsKey properties "timeSeries" with
            | .ok false => true
            | .ok true =>
              match tryGet properties "timeSeries" with
              | .ok ts =>
                match tryIdx ts 0 with
                | .ok current => !truthy current
                | .error _ => false
              | .error _ => false
            | .error _ => false
          | .error _ => false
        | .error _ => false
      | .error _ => false
    | .error _ => false
  | .error _ => false

lemma guardReturn_update (st : WeatherState) (body : Json)
    (h : guardReturn body = true) :
    async_update st (.ok (some body)) =
      .ok { st with data := some body, available := true } := by
  unfold guardReturn at h
  unfold async_update
  repeat' split at h
  all_goals simp_all

/-- `true` iff the embedded Python method returned without raising. -/
def exceptIsOk {ε α : Type} : Except ε α → Bool
  | .ok _ => true
  | .error _ => false

/-- Fixture builder: one time-series entry object with every field the
weather platform reads. -/
def mkEntry (time temp feels dew hum mslp vis wind bearing uv code precip prob : Json) :
    Json :=
  Json.obj
    [("time", time), ("screenTemperature", temp), ("feelsLikeTemperature", feels),
     ("screenDewPointTemperature", dew), ("screenRelativeHumidity", hum),
     ("mslp", mslp), ("visibility", vis), ("windSpeed10m", wind),
     ("windDirectionFrom10m", bearing), ("uvIndex", uv),
     ("significantWeatherCode", code), ("precipitationRate", precip),
     ("probOfPrecipitation", prob)]

/-- Fixture builder: a response whose single feature carries the given
time series. -/
def mkResponse (ts : List Json) : Json :=
  Json.obj [("features", Json.arr [Json.obj [("properties",
    Json.obj [("timeSeries", Json.arr ts)])]])]

lemma conditionGetE_hashable {j : Json} (h : hashableJson j = true) :
    conditionGetE j = .ok (conditionGet j) := by
  cases j <;> simp_all [conditionGetE, hashableJson]

lemma setCurrentAttrs_mkEntry (st1 : WeatherState)
    (time temp feels dew hum vis wind bearing uv code precip prob : Json) (m : ℚ)
    (hcode : hashableJson code = true) :
    setCurrentAttrs st1
        (mkEntry time temp feels dew hum (Json.num m) vis wind bearing uv code precip
          prob) =
      .ok { st1 with attrs := some ({
        native_temperature := temp,
        native_apparent_temperature := feels,
        native_dew_point := dew,
        humidity := hum,
        native_pressure := m / 100,
        native_visibility := vis,
        native_wind_speed := wind,
        wind_bearing := bearing,
        uv_index := uv,
        condition := conditionGet code } : CurrentAttrs) } := by
  have hE := conditionGetE_hashable hcode
  have h1 : setCurrentAttrs st1
      (mkEntry time temp feels dew hum (Json.num m) vis wind bearing uv code precip
        prob) =
      (conditionGetE code).bind fun cond => Except.ok { st1 with attrs := some ({
        native_temperature := temp,
        native_apparent_temperature := feels,
        native_dew_point := dew,
        humidity := hum,
        native_pressure := m / 100,
        native_visibility := vis,
        native_wind_speed := wind,
        wind_bearing := bearing,
        uv_index := uv,
        condition := cond } : CurrentAttrs) } := rfl
  rw [h1, hE]
  rfl

/-- C1 (amended): `async_update` returns cleanly whenever the client
fetch raises (any typed failure), whenever the fetch returns `None`,
whenever the body trips one of the guarded structural checks, and
whenever the body is a well-formed response (single feature, non-empty
`timeSeries`, first entry with all read fields, numeric `mslp`, and a
hashable significant-weather code).  The original claim is false for
bodies that pass the guards and then fail: an empty `features` list
raises IndexError (see the counterexample); likewise an empty
`timeSeries`, a first entry missing a read field, or an unhashable
significant-weather code (TypeError from `CONDITION_MAP.get`). -/
theorem async_update_no_escape_amended (st : WeatherState)
    (e : ApiError) (body : Json) (hguard : guardReturn body = true)
    (time temp feels dew hum vis wind bearing uv code precip prob : Json) (m : ℚ)
    (restTs : List Json) (hcode : hashableJson code = true) :
    exceptIsOk (async_update st (.error e)) = true ∧
    exceptIsOk (async_update st (.ok none)) = true ∧
    exceptIsOk (async_update st (.ok (some body))) = true ∧
    exceptIsOk (async_update st (.ok (some (mkResponse
      (mkEntry time temp feels dew hum (Json.num m) vis wind bearing uv code precip prob
        :: restTs))))) = true := by
  refine ⟨rfl, rfl, ?_, ?_⟩
  · rw [guardReturn_update st body hguard]
    rfl
  · have hnav : async_update st (.ok (some (mkResponse
        (mkEntry time temp feels dew hum (Json.num m) vis wind bearing uv code precip prob
          :: restTs)))) =
        setCurrentAttrs
          { st with
            data := some (mkResponse
              (mkEntry time temp feels dew hum (Json.num m) vis wind bearing uv code
                precip prob :: restTs)),
            available := true }
          (mkEntry time temp feels dew hum (Json.num m) vis wind bearing uv code precip
            prob) := rfl
    rw [hnav, setCurrentAttrs_mkEntry _ time temp feels dew hum vis wind bearing uv code
      precip prob m hcode]
    rfl

/-- Witness for C1 at concrete inputs. -/
theorem async_update_no_escape_amended_witness :
    guardReturn (Json.obj [("alpha", Json.num 1)]) = true ∧
    hashableJson (Json.num 7) = true ∧
    (exceptIsOk (async_update initState (.error .clientError)) = true ∧
     exceptIsOk (async_update initState (.ok none)) = true ∧
     exceptIsOk (async_update initState (.ok (some (Json.obj [("alpha", Json.num 1)])))) = true ∧
     exceptIsOk (async_update initState (.ok (some (mkResponse
       (mkEntry (Json.str "2024-05-01T00:00Z") (Json.num 10) (Json.num 9) (Json.num 8)
         (Json.num 80) (Json.num 101325) (Json.num 10000) (Json.num 5) (Json.num 180)
         (Json.num 1) (Json.num 7) (Json.num 0) (Json.num 10) :: []))))) = true) :=
  ⟨by decide, by decide,
   async_update_no_escape_amended initState .clientError (Json.obj [("alpha", Json.num 1)])
     (by decide) (Json.str "2024-05-01T00:00Z") (Json.num 10) (Json.num 9) (Json.num 8)
     (Json.num 80) (Json.num 10000) (Json.num 5) (Json.num 180) (Json.num 1) (Json.num 7)
     (Json.num 0) (Json.num 10) 101325 [] (by decide)⟩

/-- C1 counterexample: the transport-successful body `{"features": []}`
passes the `"features" not in self._data` check, then
`self._data["features"][0]` raises `IndexError`, which escapes
`async_update`; the refresh does not return cleanly on every successful
response shape. -/
theorem async_update_empty_features_raises :
    async_update initState (.ok (some (Json.obj [("features", Json.arr [])]))) =
      .error PyErr.indexError := rfl

/-- C2 (amended): on a transport-successful response that trips one of
the guarded structural checks (body falsy, `features`/`properties`/
`timeSeries` key absent, falsy first feature or first entry),
`async_update` logs and returns without raising, but it REPLACES the
stored response and leaves `available = true` (set before validation),
not `false` as claimed; and a present-but-empty `features` or
`timeSeries` list raises instead of returning. -/
theorem structural_miss_leaves_available_true (st : WeatherState) (body : Json)
    (h : guardReturn body = true) :
    async_update st (.ok (some body)) =
      .ok { st with data := some body, available := true } :=
  guardReturn_update st body h

/-- Witness for C2 at a concrete structurally deficient body. -/
theorem structural_miss_leaves_available_true_witness :
    async_update initState (.ok (some (Json.obj [("beta", Json.bool true)]))) =
      .ok { data := some (Json.obj [("beta", Json.bool true)]), available := true,
            attrs := none } :=
  structural_miss_leaves_available_true initState (Json.obj [("beta", Json.bool true)])
    (by decide)

/-- C2 counterexample: for a body with no `features` key, the claim says
`available` is left `false` for the cycle; the code instead ends the
cycle with `available = true` (and the stored response replaced). -/
theorem structural_miss_available_true_cex :
    async_update initState (.ok (some (Json.obj [("gamma", Json.num 2)]))) =
      .ok { data := some (Json.obj [("gamma", Json.num 2)]), available := true,
            attrs := none } := rfl

/-- C3: when the client's fetch raises (any failure type), `async_update`
returns cleanly with `available = false` and both the previously stored
raw response and the previously set current-conditions attributes exactly
unchanged. -/
theorem fetch_failure_preserves_data (st : WeatherState) (e : ApiError) :
    async_update st (.error e) =
      .ok { data := st.data, available := false, attrs := st.attrs } := rfl

/-- C9: for a stored well-formed response, the current-conditions
attributes are derived from the first time-series entry, with the
pressure converted from pascals to hectopascals by dividing `mslp` by
100 and the condition obtained from `CONDITION_MAP`; code 0 maps to
"clear-night" and every integer code absent from the table maps to
"unknown" rather than an error; and in the initial state (no data
stored) no current conditions are present.  The significant-weather code
is restricted to hashable values (the spec's codes are integers): an
unhashable code would make `CONDITION_MAP.get` raise `TypeError` in the
source. -/
theorem current_conditions_mapping (st : WeatherState)
    (time temp feels dew hum vis wind bearing uv codeJ precip prob : Json) (m : ℚ)
    (restTs : List Json) (n : Int) (hn : CONDITION_MAP.lookup n = none)
    (hcode : hashableJson codeJ = true) :
    async_update st (.ok (some (mkResponse
        (mkEntry time temp feels dew hum (Json.num m) vis wind bearing uv codeJ precip prob
          :: restTs)))) =
      .ok { data := some (mkResponse
              (mkEntry time temp feels dew hum (Json.num m) vis wind bearing uv codeJ
                precip prob :: restTs)),
            available := true,
            attrs := some
              { native_temperature := temp,
                native_apparent_temperature := feels,
                native_dew_point := dew,
                humidity := hum,
                native_pressure := m / 100,
                native_visibility := vis,
                native_wind_speed := wind,
                wind_bearing := bearing,
                uv_index := uv,
                condition := conditionGet codeJ } } ∧
    conditionGet (Json.num 0) = "clear-night" ∧
    conditionGet (Json.num ((n : Int) : ℚ)) = "unknown" ∧
    initState.data = none ∧ initState.attrs = none := by
  refine ⟨?_, rfl, ?_, rfl, rfl⟩
  · have hnav : async_update st (.ok (some (mkResponse
        (mkEntry time temp feels dew hum (Json.num m) vis wind bearing uv codeJ precip
          prob :: restTs)))) =
        setCurrentAttrs
          { st with
            data := some (mkResponse
              (mkEntry time temp feels dew hum (Json.num m) vis wind bearing uv codeJ
                precip prob :: restTs)),
            available := true }
          (mkEntry time temp feels dew hum (Json.num m) vis wind bearing uv codeJ precip
            prob) := rfl
    rw [hnav, setCurrentAttrs_mkEntry _ time temp feels dew hum vis wind bearing uv codeJ
      precip prob m hcode]
  · have hden : ((n : Int) : ℚ).den = 1 := Rat.den_intCast n
    have hnum : ((n : Int) : ℚ).num = n := Rat.num_intCast n
    simp [conditionGet, condLookupQ, hden, hnum, hn]

/-- Witness for C9: mslp 101325 Pa reports as 1013.25 hPa, code 0 maps to
"clear-night", the unrecognized code 99 maps to "unknown". -/
theorem current_conditions_mapping_witness :
    (101325 : ℚ) / 100 = 4053 / 4 ∧
    (async_update initState (.ok (some (mkResponse
        (mkEntry (Json.str "2024-05-01T00:00Z") (Json.num 10) (Json.num 9) (Json.num 8)
          (Json.num 80) (Json.num 101325) (Json.num 10000) (Json.num 5) (Json.num 180)
          (Json.num 1) (Json.num 0) (Json.num 0) (Json.num 10) :: [])))) =
      .ok { data := some (mkResponse
              (mkEntry (Json.str "2024-05-01T00:00Z") (Json.num 10) (Json.num 9)
                (Json.num 8) (Json.num 80) (Json.num 101325) (Json.num 10000) (Json.num 5)
                (Json.num 180) (Json.num 1) (Json.num 0) (Json.num 0) (Json.num 10) :: [])),
            available := true,
            attrs := some
              { native_temperature := Json.num 10,
                native_apparent_temperature := Json.num 9,
                native_dew_point := Json.num 8,
                humidity := Json.num 80,
                native_pressure := (101325 : ℚ) / 100,
                native_visibility := Json.num 10000,
                native_wind_speed := Json.num 5,
                wind_bearing := Json.num 180,
                uv_index := Json.num 1,
                condition := conditionGet (Json.num 0) } } ∧
     conditionGet (Json.num 0) = "clear-night" ∧
     conditionGet (Json.num ((99 : Int) : ℚ)) = "unknown" ∧
     initState.data = none ∧ initState.attrs = none) :=
  ⟨by norm_num,
   current_conditions_mapping initState (Json.str "2024-05-01T00:00Z") (Json.num 10)
     (Json.num 9) (Json.num 8) (Json.num 80) (Json.num 10000) (Json.num 5) (Json.num 180)
     (Json.num 1) (Json.num 0) (Json.num 0) (Json.num 10) 101325 [] 99 (by decide)
     (by decide)⟩

/-- Numeric field read `entry[k]` for the aggregation lists: the source
compares, sums and divides these values, so a non-numeric value is
modelled as a `TypeError`; a missing key is a `KeyError`. -/
def numField (k : String) (e : Json) : Except PyErr ℚ :=
  match tryGet e k with
  | .error err => .error err
  | .ok (.num q) => .ok q
  | .ok _ => .error .typeError

/-- Total field reader used on the spec side of statements; meaningful on
entries where `numField` succeeds. -/
def fieldQ (k : String) (e : Json) : ℚ :=
  match numField k e with
  | .ok q => q
  | .error _ => 0

/-- A list comprehension `[f(entry) for entry in l]`: the first raised
error aborts the whole list. -/
def mapME {α β : Type} (f : α → Except PyErr β) : List α → Except PyErr (List β)
  | [] => .ok []
  | x :: xs =>
    match f x with
    | .error e => .error e
    | .ok y => (mapME f xs).map fun ys => y :: ys

/-- Python `max(list)`: `ValueError` when empty, else the left fold of
the binary max (ties keep the earlier element — the same rational). -/
def pyMaxList : List ℚ → Except PyErr ℚ
  | [] => .error .valueError
  | x :: xs => .ok (xs.foldl max x)

/-- Python `min(list)`: `ValueError` when empty, else the left fold of
the binary min. -/
def pyMinList : List ℚ → Except PyErr ℚ
  | [] => .error .valueError
  | x :: xs => .ok (xs.foldl min x)

/-- Python `sum(iterable)`: left fold of addition starting from 0. -/
def pySum (l : List ℚ) : ℚ := l.foldl (· + ·) 0

/-- Python `max(x :: xs, key=key)`: keeps the current best and replaces
it only on a strictly larger key, so the first element attaining the
maximal key wins. -/
def pickMax (key : ℚ → ℕ) (x : ℚ) (xs : List ℚ) : ℚ :=
  xs.foldl (fun b y => if key b < key y then y else b) x

/-- `max(set(conditions), key=conditions.count)`: the distinct condition
codes are enumerated in the implementation-defined iteration order
`setOrder conditions.dedup` of the CPython set; an empty sequence is a
`ValueError`. -/
def pyMaxByCount (setOrder : List ℚ → List ℚ) (conditions : List ℚ) : Except PyErr ℚ :=
  match setOrder conditions.dedup with
  | [] => .error .valueError
  | x :: xs => .ok (pickMax (fun c => conditions.count c) x xs)

/-- One record returned by `_create_daily_forecast` (the `ATTR_FORECAST_*`
dictionary). -/
structure Forecast where
  time : Json
  native_temp : ℚ
  native_temp_low : ℚ
  condition : String
  native_precipitation : ℚ
  precipitation_probability : ℚ
  wind_speed : ℚ
  wind_bearing : ℚ

/-- `MetOfficeDataHubWeather._create_daily_forecast`: the five
comprehensions, the modal condition code, then the result dictionary in
source evaluation order (`daily_data[0]["time"]`, `max(temps)`,
`min(temps)`, the mapped condition, `sum(precipitationRate)`,
`max(precip_probs)`, `max(wind_speeds)`, mean of the bearings). -/
def _create_daily_forecast (setOrder : List ℚ → List ℚ) (daily_data : List Json) :
    Except PyErr Forecast :=
  match mapME (numField "screenTemperature") daily_data with
  | .error e => .error e
  | .ok temps =>
  match mapME (numField "significantWeatherCode") daily_data with
  | .error e => .error e
  | .ok conditions =>
  match mapME (numField "windSpeed10m") daily_data with
  | .error e => .error e
  | .ok wind_speeds =>
  match mapME (numField "windDirectionFrom10m") daily_data with
  | .error e => .error e
  | .ok wind_bearings =>
  match mapME (numField "probOfPrecipitation") daily_data with
  | .error e => .error e
  | .ok precip_probs =>
  match pyMaxByCount setOrder conditions with
  | .error e => .error e
  | .ok condition_code =>
  match (match daily_data with
         | [] => Except.error PyErr.indexError
         | e :: _ => tryGet e "time") with
  | .error e => .error e
  | .ok time =>
  match pyMaxList temps with
  | .error e => .error e
  | .ok temp_high =>
  match pyMinList temps with
  | .error e => .error e
  | .ok temp_low =>
  match mapME (numField "precipitationRate") daily_data with
  | .error e => .error e
  | .ok precip =>
  match pyMaxList precip_probs with
  | .error e => .error e
  | .ok prob_max =>
  match pyMaxList wind_speeds with
  | .error e => .error e
  | .ok wind_max =>
  .ok { time := time,
        native_temp := temp_high,
        native_temp_low := temp_low,
        condition := condLookupQ condition_code,
        native_precipitation := pySum precip,
        precipitation_probability := prob_max,
        wind_speed := wind_max,
        wind_bearing := pySum wind_bearings / (wind_bearings.length : ℚ) }

/-- All fields `_create_daily_forecast` reads are present and numeric,
and `time` is present. -/
def entryWf (e : Json) : Bool :=
  exceptIsOk (numField "screenTemperature" e) &&
  exceptIsOk (numField "significantWeatherCode" e) &&
  exceptIsOk (numField "windSpeed10m" e) &&
  exceptIsOk (numField "windDirectionFrom10m" e) &&
  exceptIsOk (numField "probOfPrecipitation" e) &&
  exceptIsOk (numField "precipitationRate" e) &&
  exceptIsOk (tryGet e "time")

/-- Insert into an ascending list (helper for the set-order model). -/
def insortQ (x : ℚ) : List ℚ → List ℚ
  | [] => [x]
  | y :: ys => if x ≤ y then x :: y :: ys else y :: insortQ x ys

/-- Model of the CPython set iteration order for the counterexample
input: for distinct small non-negative integer codes that occupy an
8-slot hash table without collision (`hash(n) = n < 8`), iteration visits
ascending slot order, so the distinct codes come out sorted ascending. -/
def cpythonSetOrder (l : List ℚ) : List ℚ := l.foldr insortQ []

/-- The tie-break the specification describes: among the distinct codes
in first-occurrence order, the first to attain the maximal count. -/
def firstOccurrences (l : List ℚ) : List ℚ :=
  l.foldl (fun acc x => if x ∈ acc then acc else acc ++ [x]) []

/-- Modal code with ties broken by first encounter in document order (the
claim's reading), compared against the source's set-order behaviour. -/
def firstEncounteredMode (l : List ℚ) : ℚ :=
  match firstOccurrences l with
  | [] => 0
  | x :: xs => pickMax (fun c => l.count c) x xs

lemma foldl_max_mem : ∀ (xs : List ℚ) (x : ℚ), xs.foldl max x ∈ x :: xs := by
  intro xs
  induction xs with
  | nil => intro x; simp
  | cons y ys ih =>
    intro x
    simp only [List.foldl_cons]
    rcases List.mem_cons.mp (ih (max x y)) with h1 | h1
    · rw [h1]
      rcases max_choice x y with h | h <;> simp [h]
    · simp [h1]

lemma le_foldl_max : ∀ (xs : List ℚ) (x y : ℚ), y ∈ x :: xs → y ≤ xs.foldl max x := by
  intro xs
  induction xs with
  | nil =>
    intro x y hy
    simp at hy
    simp [hy]
  | cons z zs ih =>
    intro x y hy
    simp only [List.foldl_cons]
    rcases List.mem_cons.mp hy with h | h
    · subst h
      exact le_trans (le_max_left y z) (ih (max y z) (max y z) (List.mem_cons_self _ _))
    · rcases List.mem_cons.mp h with h2 | h2
      · subst h2
        exact le_trans (le_max_right x y) (ih (max x y) (max x y) (List.mem_cons_self _ _))
      · exact ih (max x z) y (List.mem_cons_of_mem _ h2)

lemma foldl_min_mem : ∀ (xs : List ℚ) (x : ℚ), xs.foldl min x ∈ x :: xs := by
  intro xs
  induction xs with
  | nil => intro x; simp
  | cons y ys ih =>
    intro x
    simp only [List.foldl_cons]
    rcases List.mem_cons.mp (ih (min x y)) with h1 | h1
    · rw [h1]
      rcases min_choice x y with h | h <;> simp [h]
    · simp [h1]

lemma foldl_min_le : ∀ (xs : List ℚ) (x y : ℚ), y ∈ x :: xs → xs.foldl min x ≤ y := by
  intro xs
  induction xs with
  | nil =>
    intro x y hy
    simp at hy
    simp [hy]
  | cons z zs ih =>
    intro x y hy
    simp only [List.foldl_cons]
    rcases List.mem_cons.mp hy with h | h
    · subst h
      exact le_trans (ih (min y z) (min y z) (List.mem_cons_self _ _)) (min_le_left y z)
    · rcases List.mem_cons.mp h with h2 | h2
      · subst h2
        exact le_trans (ih (min x y) (min x y) (List.mem_cons_self _ _)) (min_le_right x y)
      · exact ih (min x z) y (List.mem_cons_of_mem _ h2)

lemma pickMax_mem (key : ℚ → ℕ) : ∀ (xs : List ℚ) (x : ℚ), pickMax key x xs ∈ x :: xs := by
  intro xs
  induction xs with
  | nil => intro x; simp [pickMax]
  | cons z zs ih =>
    intro x
    have hstep : pickMax key x (z :: zs) =
        pickMax key (if key x < key z then z else x) zs := rfl
    rw [hstep]
    rcases List.mem_cons.mp (ih (if key x < key z then z else x)) with h1 | h1
    · rw [h1]
      by_cases h : key x < key z <;> simp [h]
    · simp [h1]

lemma pickMax_key_ge (key : ℚ → ℕ) :
    ∀ (xs : List ℚ) (x y : ℚ), y ∈ x :: xs → key y ≤ key (pickMax key x xs) := by
  intro xs
  induction xs with
  | nil =>
    intro x y hy
    simp at hy
    simp [pickMax, hy]
  | cons z zs ih =>
    intro x y hy
    have hstep : pickMax key x (z :: zs) =
        pickMax key (if key x < key z then z else x) zs := rfl
    rw [hstep]
    have hhead : key (if key x < key z then z else x) ≤
        key (pickMax key (if key x < key z then z else x) zs) :=
      ih _ _ (List.mem_cons_self _ _)
    rcases List.mem_cons.mp hy with h | h
    · subst h
      refine le_trans ?_ hhead
      by_cases h2 : key y < key z
      · simp [h2]; omega
      · simp [h2]
    · rcases List.mem_cons.mp h with h2 | h2
      · subst h2
        refine le_trans ?_ hhead
        by_cases h3 : key x < key y
        · simp [h3]
        · simp [h3]; omega
      · exact ih _ y (List.mem_cons_of_mem _ h2)

lemma pickMax_unique (key : ℚ → ℕ) (xs : List ℚ) (x c : ℚ) (hc : c ∈ x :: xs)
    (hdom : ∀ y ∈ x :: xs, y ≠ c → key y < key c) : pickMax key x xs = c := by
  by_contra hne
  have h1 := pickMax_key_ge key xs x c hc
  have h2 := hdom (pickMax key x xs) (pickMax_mem key xs x) hne
  omega

lemma mapME_numField_eq (k : String) : ∀ (dd : List Json),
    (∀ e ∈ dd, exceptIsOk (numField k e) = true) →
    mapME (numField k) dd = .ok (dd.map (fieldQ k)) := by
  intro dd
  induction dd with
  | nil => intro _; rfl
  | cons e rest ih =>
    intro h
    have he := h e (by simp)
    cases hn : numField k e with
    | error err => rw [hn] at he; simp [exceptIsOk] at he
    | ok q =>
      have hq : fieldQ k e = q := by simp [fieldQ, hn]
      simp [mapME, hn, ih (fun x hx => h x (by simp [hx])), hq, Except.map]

lemma foldl_add_eq (l : List ℚ) : ∀ a : ℚ, l.foldl (· + ·) a = a + l.sum := by
  induction l with
  | nil => intro a; simp
  | cons x xs ih =>
    intro a
    simp only [List.foldl_cons, List.sum_cons, ih]
    ring

lemma pySum_eq_sum (l : List ℚ) : pySum l = l.sum := by
  simp [pySum, foldl_add_eq]

lemma entryWf_fields {e : Json} (h : entryWf e = true) :
    exceptIsOk (numField "screenTemperature" e) = true ∧
    exceptIsOk (numField "significantWeatherCode" e) = true ∧
    exceptIsOk (numField "windSpeed10m" e) = true ∧
    exceptIsOk (numField "windDirectionFrom10m" e) = true ∧
    exceptIsOk (numField "probOfPrecipitation" e) = true ∧
    exceptIsOk (numField "precipitationRate" e) = true ∧
    exceptIsOk (tryGet e "time") = true := by
  simp only [entryWf, Bool.and_eq_true] at h
  tauto

/-- C8 (amended): for a non-empty run of well-formed entries, the derived
daily forecast has `time` equal to the first entry's timestamp,
`temp_high`/`temp_low` the maximum/minimum screenTemperature,
`precipitation_total` the sum of precipitationRate,
`precipitation_probability_max` the maximum probOfPrecipitation,
`wind_speed_max` the maximum windSpeed10m, `wind_bearing_mean` the
arithmetic mean of windDirectionFrom10m; and whenever one code is
strictly most frequent, the condition is that code mapped through
`CONDITION_MAP` — for every enumeration order of the distinct codes.
When several codes tie for most frequent, the chosen code is the first
to attain the maximal count in the iteration order of `set(conditions)`
(implementation-defined), not necessarily the first-encountered code;
see the counterexample. -/
theorem daily_reduction_fields (setOrder : List ℚ → List ℚ) (e0 : Json) (rest : List Json)
    (cstar : ℚ)
    (hwf : ∀ e ∈ e0 :: rest, entryWf e = true)
    (hso1 : ∀ q ∈ setOrder (((e0 :: rest).map (fieldQ "significantWeatherCode")).dedup),
        q ∈ ((e0 :: rest).map (fieldQ "significantWeatherCode")).dedup)
    (hso2 : ∀ q ∈ ((e0 :: rest).map (fieldQ "significantWeatherCode")).dedup,
        q ∈ setOrder (((e0 :: rest).map (fieldQ "significantWeatherCode")).dedup)) :
    ∃ f, _create_daily_forecast setOrder (e0 :: rest) = .ok f ∧
      tryGet e0 "time" = .ok f.time ∧
      f.native_temp ∈ (e0 :: rest).map (fieldQ "screenTemperature") ∧
      (∀ q ∈ (e0 :: rest).map (fieldQ "screenTemperature"), q ≤ f.native_temp) ∧
      f.native_temp_low ∈ (e0 :: rest).map (fieldQ "screenTemperature") ∧
      (∀ q ∈ (e0 :: rest).map (fieldQ "screenTemperature"), f.native_temp_low ≤ q) ∧
      f.native_precipitation = ((e0 :: rest).map (fieldQ "precipitationRate")).sum ∧
      f.precipitation_probability ∈ (e0 :: rest).map (fieldQ "probOfPrecipitation") ∧
      (∀ q ∈ (e0 :: rest).map (fieldQ "probOfPrecipitation"),
        q ≤ f.precipitation_probability) ∧
      f.wind_speed ∈ (e0 :: rest).map (fieldQ "windSpeed10m") ∧
      (∀ q ∈ (e0 :: rest).map (fieldQ "windSpeed10m"), q ≤ f.wind_speed) ∧
      f.wind_bearing = ((e0 :: rest).map (fieldQ "windDirectionFrom10m")).sum /
        (((e0 :: rest).length : ℕ) : ℚ) ∧
      (cstar ∈ (e0 :: rest).map (fieldQ "significantWeatherCode") →
        (∀ y ∈ (e0 :: rest).map (fieldQ "significantWeatherCode"), y ≠ cstar →
          ((e0 :: rest).map (fieldQ "significantWeatherCode")).count y <
            ((e0 :: rest).map (fieldQ "significantWeatherCode")).count cstar) →
        f.condition = condLookupQ cstar) := by
  have hT := mapME_numField_eq "screenTemperature" (e0 :: rest)
    (fun e he => (entryWf_fields (hwf e he)).1)
  have hC := mapME_numField_eq "significantWeatherCode" (e0 :: rest)
    (fun e he => (entryWf_fields (hwf e he)).2.1)
  have hW := mapME_numField_eq "windSpeed10m" (e0 :: rest)
    (fun e he => (entryWf_fields (hwf e he)).2.2.1)
  have hB := mapME_numField_eq "windDirectionFrom10m" (e0 :: rest)
    (fun e he => (entryWf_fields (hwf e he)).2.2.2.1)
  have hP := mapME_numField_eq "probOfPrecipitation" (e0 :: rest)
    (fun e he => (entryWf_fields (hwf e he)).2.2.2.2.1)
  have hR := mapME_numField_eq "precipitationRate" (e0 :: rest)
    (fun e he => (entryWf_fields (hwf e he)).2.2.2.2.2.1)
  obtain ⟨t0, ht0⟩ : ∃ t, tryGet e0 "time" = .ok t := by
    have h := (entryWf_fields (hwf e0 (List.mem_cons_self _ _))).2.2.2.2.2.2
    cases hg : tryGet e0 "time" with
    | ok v => exact ⟨v, rfl⟩
    | error err => rw [hg] at h; simp [exceptIsOk] at h
  obtain ⟨x, xs, hso⟩ : ∃ x xs,
      setOrder (((e0 :: rest).map (fieldQ "significantWeatherCode")).dedup) = x :: xs := by
    cases hs : setOrder (((e0 :: rest).map (fieldQ "significantWeatherCode")).dedup) with
    | cons x xs => exact ⟨x, xs, rfl⟩
    | nil =>
      have hmem : fieldQ "significantWeatherCode" e0 ∈
          ((e0 :: rest).map (fieldQ "significantWeatherCode")).dedup := by
        rw [List.mem_dedup]
        exact List.mem_map_of_mem _ (List.mem_cons_self _ _)
      have hmem2 := hso2 _ hmem
      rw [hs] at hmem2
      simp at hmem2
  have hcreate : _create_daily_forecast setOrder (e0 :: rest) = .ok
      { time := t0,
        native_temp := (rest.map (fieldQ "screenTemperature")).foldl max
          (fieldQ "screenTemperature" e0),
        native_temp_low := (rest.map (fieldQ "screenTemperature")).foldl min
          (fieldQ "screenTemperature" e0),
        condition := condLookupQ (pickMax
          (fun c => ((e0 :: rest).map (fieldQ "significantWeatherCode")).count c) x xs),
        native_precipitation := pySum ((e0 :: rest).map (fieldQ "precipitationRate")),
        precipitation_probability := (rest.map (fieldQ "probOfPrecipitation")).foldl max
          (fieldQ "probOfPrecipitation" e0),
        wind_speed := (rest.map (fieldQ "windSpeed10m")).foldl max
          (fieldQ "windSpeed10m" e0),
        wind_bearing := pySum ((e0 :: rest).map (fieldQ "windDirectionFrom10m")) /
          ((((e0 :: rest).map (fieldQ "windDirectionFrom10m")).length : ℕ) : ℚ) } := by
    have hso' := hso
    rw [List.map_cons] at hso'
    rw [_create_daily_forecast, hT, hC, hW, hB, hP]
    simp only [pyMaxByCount, List.map_cons, hso', pyMaxList, pyMinList, ht0, hR]
  refine ⟨_, hcreate, ht0, ?_, ?_, ?_, ?_, ?_, ?_, ?_, ?_, ?_, ?_, ?_⟩
  · rw [List.map_cons]
    exact foldl_max_mem _ _
  · intro q hq
    rw [List.map_cons] at hq
    exact le_foldl_max _ _ _ hq
  · rw [List.map_cons]
    exact foldl_min_mem _ _
  · intro q hq
    rw [List.map_cons] at hq
    exact foldl_min_le _ _ _ hq
  · exact pySum_eq_sum _
  · rw [List.map_cons]
    exact foldl_max_mem _ _
  · intro q hq
    rw [List.map_cons] at hq
    exact le_foldl_max _ _ _ hq
  · rw [List.map_cons]
    exact foldl_max_mem _ _
  · intro q hq
    rw [List.map_cons] at hq
    exact le_foldl_max _ _ _ hq
  · show pySum ((e0 :: rest).map (fieldQ "windDirectionFrom10m")) /
        ((((e0 :: rest).map (fieldQ "windDirectionFrom10m")).length : ℕ) : ℚ) = _
    rw [pySum_eq_sum, List.length_map]
  · intro hstar hdom
    have hc1 : cstar ∈ x :: xs := by
      rw [← hso]
      exact hso2 _ (List.mem_dedup.mpr hstar)
    have hdom2 : ∀ y ∈ x :: xs, y ≠ cstar →
        ((e0 :: rest).map (fieldQ "significantWeatherCode")).count y <
          ((e0 :: rest).map (fieldQ "significantWeatherCode")).count cstar := by
      intro y hy hne
      refine hdom y (List.mem_dedup.mp (hso1 y ?_)) hne
      rw [hso]
      exact hy
    show condLookupQ (pickMax
        (fun c => ((e0 :: rest).map (fieldQ "significantWeatherCode")).count c) x xs) =
      condLookupQ cstar
    rw [pickMax_unique _ xs x cstar hc1 hdom2]

/-- Witness for C8: three entries with codes 1, 1, 3 — code 1 is strictly
most frequent, so the condition is `condLookupQ 1 = "sunny"` regardless
of the set order. -/
theorem daily_reduction_fields_witness :
    ∃ f, _create_daily_forecast cpythonSetOrder
        [mkEntry (Json.num 1) (Json.num 10) (Json.num 0) (Json.num 0) (Json.num 0)
           (Json.num 101325) (Json.num 0) (Json.num 4) (Json.num 100) (Json.num 0)
           (Json.num 1) (Json.num 2) (Json.num 30),
         mkEntry (Json.num 1) (Json.num 12) (Json.num 0) (Json.num 0) (Json.num 0)
           (Json.num 101325) (Json.num 0) (Json.num 6) (Json.num 110) (Json.num 0)
           (Json.num 1) (Json.num 1) (Json.num 60),
         mkEntry (Json.num 1) (Json.num 11) (Json.num 0) (Json.num 0) (Json.num 0)
           (Json.num 101325) (Json.num 0) (Json.num 5) (Json.num 120) (Json.num 0)
           (Json.num 3) (Json.num 3) (Json.num 40)] = .ok f ∧
      f.condition = condLookupQ 1 ∧ condLookupQ 1 = "sunny" := by
  obtain ⟨f, hf, hrest⟩ := daily_reduction_fields cpythonSetOrder
    (mkEntry (Json.num 1) (Json.num 10) (Json.num 0) (Json.num 0) (Json.num 0)
      (Json.num 101325) (Json.num 0) (Json.num 4) (Json.num 100) (Json.num 0)
      (Json.num 1) (Json.num 2) (Json.num 30))
    [mkEntry (Json.num 1) (Json.num 12) (Json.num 0) (Json.num 0) (Json.num 0)
      (Json.num 101325) (Json.num 0) (Json.num 6) (Json.num 110) (Json.num 0)
      (Json.num 1) (Json.num 1) (Json.num 60),
     mkEntry (Json.num 1) (Json.num 11) (Json.num 0) (Json.num 0) (Json.num 0)
      (Json.num 101325) (Json.num 0) (Json.num 5) (Json.num 120) (Json.num 0)
      (Json.num 3) (Json.num 3) (Json.num 40)] 1
    (by decide) (by decide) (by decide)
  exact ⟨f, hf, hrest.2.2.2.2.2.2.2.2.2.2.2 (by decide) (by decide), by decide⟩

/-- C8 counterexample: two entries whose codes 3 then 1 tie at one
occurrence each.  The claim's tie-break (first-encountered) picks code 3,
mapped to "partlycloudy"; the source's `max(set(conditions),
key=conditions.count)` iterates the set `{3, 1}` in CPython slot order
`1, 3` and picks code 1, mapped to "sunny". -/
theorem daily_mode_tiebreak_cex :
    (_create_daily_forecast cpythonSetOrder
        [mkEntry (Json.num 1) (Json.num 10) (Json.num 0) (Json.num 0) (Json.num 0)
           (Json.num 101325) (Json.num 0) (Json.num 4) (Json.num 100) (Json.num 0)
           (Json.num 3) (Json.num 2) (Json.num 30),
         mkEntry (Json.num 1) (Json.num 12) (Json.num 0) (Json.num 0) (Json.num 0)
           (Json.num 101325) (Json.num 0) (Json.num 6) (Json.num 110) (Json.num 0)
           (Json.num 1) (Json.num 1) (Json.num 60)]).map Forecast.condition =
      Except.ok "sunny" ∧
    condLookupQ (firstEncounteredMode [3, 1]) = "partlycloudy" ∧
    "sunny" ≠ "partlycloudy" := by
  refine ⟨?_, ?_, by decide⟩
  · rfl
  · rfl

/-- The grouping loop of `async_forecast_daily` (`for entry in
time_series`), with `cd` the running `current_day` and `dd` the running
`daily_data`.  The produced forecasts come back in order (the source
appends them to `daily_forecasts`); the entry's `time` subscript and its
parse are evaluated before the boundary flush, as in the source, so
errors surface in the same order. -/
def dailyLoop (setOrder : List ℚ → List ℚ) (parse : Json → Option Int) :
    List Json → Option Int → List Json → Except PyErr (List Forecast)
  | [], _, dd =>
    match dd with
    | [] => .ok []
    | _ => (_create_daily_forecast setOrder dd).map fun f => [f]
  | e :: rest, cd, dd =>
    match tryGet e "time" with
    | .error err => .error err
    | .ok t =>
      match parse t with
      | none => dailyLoop setOrder parse rest cd dd
      | some day =>
        match cd with
        | none => dailyLoop setOrder parse rest (some day) (dd ++ [e])
        | some c =>
          if day = c then dailyLoop setOrder parse rest (some c) (dd ++ [e])
          else
            match dd with
            | [] => dailyLoop setOrder parse rest (some day) [e]
            | _ =>
              match _create_daily_forecast setOrder dd with
              | .error err => .error err
              | .ok f => (dailyLoop setOrder parse rest (some day) [e]).map fun l => f :: l

/-- `MetOfficeDataHubWeather.async_forecast_daily`: `None` for falsy
stored data, otherwise navigate `features[0].properties.timeSeries`
(unguarded: Python errors escape) and run the grouping loop. -/
def async_forecast_daily (setOrder : List ℚ → List ℚ) (parse : Json → Option Int)
    (st : WeatherState) : Except PyErr (Option (List Forecast)) :=
  match st.data with
  | none => .ok none
  | some d =>
    if !truthy d then .ok none
    else match tryGet d "features" with
    | .error e => .error e
    | .ok fs =>
      match tryIdx fs 0 with
      | .error e => .error e
      | .ok feature =>
        match tryGet feature "properties" with
        | .error e => .error e
        | .ok properties =>
          match tryGet properties "timeSeries" with
          | .error e => .error e
          | .ok tsJ =>
            match pyIter tsJ with
            | .error e => .error e
            | .ok ts => (dailyLoop setOrder parse ts none []).map some

/-- Spec-side timestamp of an entry (meaningful when `"time"` is
present). -/
def timeOf (e : Json) : Json :=
  match tryGet e "time" with
  | .ok t => t
  | .error _ => Json.null

/-- Spec-side: the entries whose timestamp parses, each paired with its
calendar date, in document order (unparseable entries are dropped). -/
def pairsOf (parse : Json → Option Int) (ts : List Json) : List (Json × Int) :=
  ts.filterMap fun e => (parse (timeOf e)).map fun d => (e, d)

/-- Spec-side: partition a dated sequence into maximal runs of adjacent
entries with equal date.  Two non-adjacent runs of the same date stay
separate. -/
def specChunk : List (Json × Int) → List (List Json)
  | [] => []
  | [(e, _)] => [[e]]
  | (e, d) :: (e', d') :: rest =>
    match specChunk ((e', d') :: rest) with
    | [] => [[e]]
    | g :: gs => if d = d' then (e :: g) :: gs else [e] :: g :: gs

/-- Spec-side partition of the claim: drop unparseable entries, then
chunk by calendar-date change between adjacent entries. -/
def specPartition (parse : Json → Option Int) (ts : List Json) : List (List Json) :=
  specChunk (pairsOf parse ts)

/-- Concrete date extractor used by witnesses: an integral JSON number is
its own calendar date, anything else is unparseable. -/
def parseNum : Json → Option Int
  | .num q => if q.den = 1 then some q.num else none
  | _ => none

lemma specChunk_ne_nil (p : Json × Int) (l : List (Json × Int)) :
    specChunk (p :: l) ≠ [] := by
  cases p with
  | mk e d =>
    cases l with
    | nil => simp [specChunk]
    | cons q rest =>
      cases q with
      | mk e' d' =>
        cases h : specChunk ((e', d') :: rest) with
        | nil => simp [specChunk, h]
        | cons g gs => by_cases hd : d = d' <;> simp [specChunk, h, hd]

lemma specChunk_const (c : Int) : ∀ (dd : List Json), dd ≠ [] →
    specChunk (dd.map fun x => (x, c)) = [dd] := by
  intro dd
  induction dd with
  | nil => intro h; exact absurd rfl h
  | cons x xs ih =>
    intro _
    cases xs with
    | nil => rfl
    | cons y ys =>
      have h2 := ih (by simp)
      simp only [List.map_cons] at h2 ⊢
      simp [specChunk, h2]

lemma specChunk_flushRun (c day : Int) (e : Json) (l : List (Json × Int)) :
    ∀ (dd : List Json), dd ≠ [] → day ≠ c →
    specChunk ((dd.map fun x => (x, c)) ++ (e, day) :: l) =
      dd :: specChunk ((e, day) :: l) := by
  intro dd
  induction dd with
  | nil => intro h; exact absurd rfl h
  | cons x xs ih =>
    intro _ hne
    have hcd : ¬(c = day) := fun hh => hne hh.symm
    cases xs with
    | nil =>
      cases h : specChunk ((e, day) :: l) with
      | nil => exact absurd h (specChunk_ne_nil _ _)
      | cons g gs => simp [specChunk, h, hcd]
    | cons y ys =>
      have h2 := ih (by simp) hne
      simp only [List.map_cons, List.cons_append] at h2 ⊢
      simp [specChunk, h2]

lemma pairsOf_cons (parse : Json → Option Int) (e : Json) (rest : List Json) :
    pairsOf parse (e :: rest) =
      (match parse (timeOf e) with
       | none => pairsOf parse rest
       | some d => (e, d) :: pairsOf parse rest) := by
  cases h : parse (timeOf e) <;> simp [pairsOf, List.filterMap_cons, h]

/-- Loop invariant: with running day `cd` and accumulated run `dd`
(empty whenever `cd` is unset), finishing the loop over `ts` equals
reducing, in order, the adjacent-date chunks of `dd` (annotated with its
day) followed by the dated remainder. -/
lemma dailyLoop_eq_spec (setOrder : List ℚ → List ℚ) (parse : Json → Option Int) :
    ∀ (ts : List Json) (cd : Option Int) (dd : List Json),
      (∀ e ∈ ts, exceptIsOk (tryGet e "time") = true) →
      (cd = none → dd = []) →
      dailyLoop setOrder parse ts cd dd =
        mapME (_create_daily_forecast setOrder)
          (specChunk ((match cd with
            | none => ([] : List (Json × Int))
            | some c => dd.map fun x => (x, c)) ++ pairsOf parse ts)) := by
  intro ts
  induction ts with
  | nil =>
    intro cd dd htime hinv
    cases cd with
    | none =>
      have hdd := hinv rfl
      subst hdd
      simp [dailyLoop, pairsOf, specChunk, mapME]
    | some c =>
      cases dd with
      | nil => simp [dailyLoop, pairsOf, specChunk, mapME]
      | cons x xs =>
        have hc := specChunk_const c (x :: xs) (by simp)
        show (_create_daily_forecast setOrder (x :: xs)).map (fun f => [f]) =
          mapME (_create_daily_forecast setOrder)
            (specChunk (((x :: xs).map fun y => (y, c)) ++ pairsOf parse []))
        rw [show pairsOf parse [] = [] from rfl, List.append_nil, hc]
        cases h : _create_daily_forecast setOrder (x :: xs) <;>
          simp [mapME, h, Except.map]
  | cons e rest ih =>
    intro cd dd htime hinv
    have he := htime e (by simp)
    obtain ⟨t, ht⟩ : ∃ t, tryGet e "time" = .ok t := by
      cases h : tryGet e "time" with
      | ok v => exact ⟨v, rfl⟩
      | error err => rw [h] at he; simp [exceptIsOk] at he
    have htimeOf : timeOf e = t := by simp [timeOf, ht]
    have htr : ∀ x ∈ rest, exceptIsOk (tryGet x "time") = true :=
      fun x hx => htime x (by simp [hx])
    cases hp : parse t with
    | none =>
      have hstep : dailyLoop setOrder parse (e :: rest) cd dd =
          dailyLoop setOrder parse rest cd dd := by
        simp only [dailyLoop, ht, hp]
      rw [hstep, pairsOf_cons, htimeOf, hp]
      exact ih cd dd htr hinv
    | some day =>
      cases cd with
      | none =>
        have hdd := hinv rfl
        subst hdd
        have hstep : dailyLoop setOrder parse (e :: rest) none [] =
            dailyLoop setOrder parse rest (some day) [e] := by
          simp only [dailyLoop, ht, hp, List.nil_append]
        rw [hstep, pairsOf_cons, htimeOf, hp]
        exact ih (some day) [e] htr (fun hh => by cases hh)
      | some c =>
        by_cases hdc : day = c
        · subst hdc
          have hstep : dailyLoop setOrder parse (e :: rest) (some day) dd =
              dailyLoop setOrder parse rest (some day) (dd ++ [e]) := by
            simp [dailyLoop, ht, hp]
          rw [hstep, pairsOf_cons, htimeOf, hp]
          have hrec := ih (some day) (dd ++ [e]) htr (fun hh => by cases hh)
          rw [hrec]
          congr 2
          simp
        · cases dd with
          | nil =>
            have hstep : dailyLoop setOrder parse (e :: rest) (some c) [] =
                dailyLoop setOrder parse rest (some day) [e] := by
              simp [dailyLoop, ht, hp, hdc]
            rw [hstep, pairsOf_cons, htimeOf, hp]
            exact ih (some day) [e] htr (fun hh => by cases hh)
          | cons x xs =>
            have hstep : dailyLoop setOrder parse (e :: rest) (some c) (x :: xs) =
                (match _create_daily_forecast setOrder (x :: xs) with
                 | .error err => .error err
                 | .ok f =>
                   (dailyLoop setOrder parse rest (some day) [e]).map fun l => f :: l) := by
              simp [dailyLoop, ht, hp, hdc]
            rw [hstep, pairsOf_cons, htimeOf, hp]
            show _ = mapME (_create_daily_forecast setOrder)
              (specChunk (((x :: xs).map fun y => (y, c)) ++ (e, day) :: pairsOf parse rest))
            rw [specChunk_flushRun c day e (pairsOf parse rest) (x :: xs) (by simp) hdc]
            have hrec := ih (some day) [e] htr (fun hh => by cases hh)
            cases hcr : _create_daily_forecast setOrder (x :: xs) with
            | error err => simp [mapME, hcr]
            | ok f =>
              simp only [hcr]
              rw [hrec]
              simp [mapME, hcr, Except.map, List.singleton_append]

/-- C7: for every stored response whose time-series entries each carry a
`"time"` field, `async_forecast_daily` returns exactly the per-group
reduction of the spec-side partition: entries with an unparseable
timestamp are dropped and counted into no day, input order is preserved,
and groups are the maximal runs of adjacent entries with equal calendar
date — two non-adjacent runs of the same date give two separate records,
never merged. -/
theorem daily_partition_refinement (setOrder : List ℚ → List ℚ)
    (parse : Json → Option Int) (ts : List Json) (av : Bool) (a : Option CurrentAttrs)
    (htime : ∀ e ∈ ts, exceptIsOk (tryGet e "time") = true) :
    async_forecast_daily setOrder parse
        { data := some (mkResponse ts), available := av, attrs := a } =
      (mapME (_create_daily_forecast setOrder) (specPartition parse ts)).map some := by
  have hnav : async_forecast_daily setOrder parse
      { data := some (mkResponse ts), available := av, attrs := a } =
      (dailyLoop setOrder parse ts none []).map some := rfl
  rw [hnav, dailyLoop_eq_spec setOrder parse ts none [] htime (fun _ => rfl)]
  rfl

/-- Witness for C7: four entries dated 1, 1, 2, 1.  The partition has
three groups in input order; the two non-adjacent runs of date 1 stay
separate; the refinement equation holds at this input. -/
theorem daily_partition_refinement_witness :
    specPartition parseNum
      [mkEntry (Json.num 1) (Json.num 10) (Json.num 0) (Json.num 0) (Json.num 0)
         (Json.num 0) (Json.num 0) (Json.num 1) (Json.num 90) (Json.num 0)
         (Json.num 1) (Json.num 2) (Json.num 30),
       mkEntry (Json.num 1) (Json.num 12) (Json.num 0) (Json.num 0) (Json.num 0)
         (Json.num 0) (Json.num 0) (Json.num 2) (Json.num 100) (Json.num 0)
         (Json.num 3) (Json.num 1) (Json.num 40),
       mkEntry (Json.num 2) (Json.num 8) (Json.num 0) (Json.num 0) (Json.num 0)
         (Json.num 0) (Json.num 0) (Json.num 3) (Json.num 110) (Json.num 0)
         (Json.num 7) (Json.num 0) (Json.num 50),
       mkEntry (Json.num 1) (Json.num 9) (Json.num 0) (Json.num 0) (Json.num 0)
         (Json.num 0) (Json.num 0) (Json.num 4) (Json.num 120) (Json.num 0)
         (Json.num 8) (Json.num 1) (Json.num 60)] =
      [[mkEntry (Json.num 1) (Json.num 10) (Json.num 0) (Json.num 0) (Json.num 0)
          (Json.num 0) (Json.num 0) (Json.num 1) (Json.num 90) (Json.num 0)
          (Json.num 1) (Json.num 2) (Json.num 30),
        mkEntry (Json.num 1) (Json.num 12) (Json.num 0) (Json.num 0) (Json.num 0)
          (Json.num 0) (Json.num 0) (Json.num 2) (Json.num 100) (Json.num 0)
          (Json.num 3) (Json.num 1) (Json.num 40)],
       [mkEntry (Json.num 2) (Json.num 8) (Json.num 0) (Json.num 0) (Json.num 0)
          (Json.num 0) (Json.num 0) (Json.num 3) (Json.num 110) (Json.num 0)
          (Json.num 7) (Json.num 0) (Json.num 50)],
       [mkEntry (Json.num 1) (Json.num 9) (Json.num 0) (Json.num 0) (Json.num 0)
          (Json.num 0) (Json.num 0) (Json.num 4) (Json.num 120) (Json.num 0)
          (Json.num 8) (Json.num 1) (Json.num 60)]] ∧
    async_forecast_daily cpythonSetOrder parseNum
        { data := some (mkResponse
            [mkEntry (Json.num 1) (Json.num 10) (Json.num 0) (Json.num 0) (Json.num 0)
               (Json.num 0) (Json.num 0) (Json.num 1) (Json.num 90) (Json.num 0)
               (Json.num 1) (Json.num 2) (Json.num 30),
             mkEntry (Json.num 1) (Json.num 12) (Json.num 0) (Json.num 0) (Json.num 0)
               (Json.num 0) (Json.num 0) (Json.num 2) (Json.num 100) (Json.num 0)
               (Json.num 3) (Json.num 1) (Json.num 40),
             mkEntry (Json.num 2) (Json.num 8) (Json.num 0) (Json.num 0) (Json.num 0)
               (Json.num 0) (Json.num 0) (Json.num 3) (Json.num 110) (Json.num 0)
               (Json.num 7) (Json.num 0) (Json.num 50),
             mkEntry (Json.num 1) (Json.num 9) (Json.num 0) (Json.num 0) (Json.num 0)
               (Json.num 0) (Json.num 0) (Json.num 4) (Json.num 120) (Json.num 0)
               (Json.num 8) (Json.num 1) (Json.num 60)]),
          available := true, attrs := none } =
      (mapME (_create_daily_forecast cpythonSetOrder)
        (specPartition parseNum
          [mkEntry (Json.num 1) (Json.num 10) (Json.num 0) (Json.num 0) (Json.num 0)
             (Json.num 0) (Json.num 0) (Json.num 1) (Json.num 90) (Json.num 0)
             (Json.num 1) (Json.num 2) (Json.num 30),
           mkEntry (Json.num 1) (Json.num 12) (Json.num 0) (Json.num 0) (Json.num 0)
             (Json.num 0) (Json.num 0) (Json.num 2) (Json.num 100) (Json.num 0)
             (Json.num 3) (Json.num 1) (Json.num 40),
           mkEntry (Json.num 2) (Json.num 8) (Json.num 0) (Json.num 0) (Json.num 0)
             (Json.num 0) (Json.num 0) (Json.num 3) (Json.num 110) (Json.num 0)
             (Json.num 7) (Json.num 0) (Json.num 50),
           mkEntry (Json.num 1) (Json.num 9) (Json.num 0) (Json.num 0) (Json.num 0)
             (Json.num 0) (Json.num 0) (Json.num 4) (Json.num 120) (Json.num 0)
             (Json.num 8) (Json.num 1) (Json.num 60)])).map some :=
  ⟨rfl,
   daily_partition_refinement cpythonSetOrder parseNum
     [mkEntry (Json.num 1) (Json.num 10) (Json.num 0) (Json.num 0) (Json.num 0)
        (Json.num 0) (Json.num 0) (Json.num 1) (Json.num 90) (Json.num 0)
        (Json.num 1) (Json.num 2) (Json.num 30),
      mkEntry (Json.num 1) (Json.num 12) (Json.num 0) (Json.num 0) (Json.num 0)
        (Json.num 0) (Json.num 0) (Json.num 2) (Json.num 100) (Json.num 0)
        (Json.num 3) (Json.num 1) (Json.num 40),
      mkEntry (Json.num 2) (Json.num 8) (Json.num 0) (Json.num 0) (Json.num 0)
        (Json.num 0) (Json.num 0) (Json.num 3) (Json.num 110) (Json.num 0)
        (Json.num 7) (Json.num 0) (Json.num 50),
      mkEntry (Json.num 1) (Json.num 9) (Json.num 0) (Json.num 0) (Json.num 0)
        (Json.num 0) (Json.num 0) (Json.num 4) (Json.num 120) (Json.num 0)
        (Json.num 8) (Json.num 1) (Json.num 60)] true none (by decide)⟩
